import Mathlib

/-!
Verification development for the Wild Vision two-layer detection pipeline.

The Python source is shallowly embedded: detection records become Lean
structures; confidences (Python floats used only for comparison and
field copying) are modelled as rationals; the snapshot directory is a
list of file paths; the opaque effects of a verification run (the two
detector passes, the snapshot write, the snapshot re-read) are the
fields of an environment record, so that verify_detection_2layer is a
pure function of the environment and the file-system state.
-/

namespace WildVision

/-- Bounding box in integer pixel coordinates (x1, y1, x2, y2), as built
in detect_objects from box.xyxy. -/
structure BBox where
  x1 : Int
  y1 : Int
  x2 : Int
  y2 : Int
deriving DecidableEq

/-- One detection dictionary as produced by detect_objects in
utils/yolo_detector.py: class_id, class_name, confidence, bbox. -/
structure Detection where
  class_id : Nat
  class_name : String
  confidence : ℚ
  bbox : BBox
deriving DecidableEq

/-- One step of the Python builtin max with a key function: the current
best is replaced only when the new element is strictly larger. -/
def maxStep (best x : Detection) : Detection :=
  if best.confidence < x.confidence then x else best

/-- Folding maxStep over the tail, starting from the head: the value
computed by Python max(detections, key=lambda x: x[confidence]). -/
def bestOf (d : Detection) (ds : List Detection) : Detection :=
  ds.foldl maxStep d

/-- get_highest_confidence_detection from utils/yolo_detector.py:
returns None on the empty list, otherwise max by confidence (Python max
keeps the first element among ties). -/
def get_highest_confidence_detection (detections : List Detection) : Option Detection :=
  match detections with
  | [] => none
  | d :: ds => some (bestOf d ds)

/-- detect_objects from utils/yolo_detector.py, with the model-inference
call abstracted as an Except value: Except.ok gives the parsed
detection list, Except.error models an exception raised during
inference or result parsing. The source returns an empty list when the
model failed to load, and catches every exception, reporting it to the
UI and returning an empty list. -/
def detect_objects (modelLoaded : Bool) (inference : Except String (List Detection)) :
    List Detection :=
  if modelLoaded = false then []
  else
    match inference with
    | Except.ok ds => ds
    | Except.error _ => []

/-- The snapshot directory, modelled as the list of file paths that
currently exist on disk. -/
abbrev FS := List String

/-- delete_snapshot from utils/verification.py: if the path exists it
is unlinked and True is returned, otherwise False; the file system
keeps no trace of a deleted path. -/
def delete_snapshot (fs : FS) (filepath : String) : Bool × FS :=
  if filepath ∈ fs then (true, fs.filter (fun q => !(q == filepath)))
  else (false, fs)

/-- save_snapshot from utils/verification.py, with its effects
abstracted: savePath is the timestamped path the function computes and
returns (none when an exception is caught, in which case nothing was
written); writeOk records whether cv2.imwrite actually created the
file (the source ignores the imwrite return value). -/
def save_snapshot (fs : FS) (savePath : Option String) (writeOk : Bool) :
    Option String × FS :=
  match savePath with
  | none => (none, fs)
  | some p => (some p, if writeOk then p :: fs else fs)

/-- Best-detection summary built on the verified branch of
verify_detection_2layer. -/
structure BestDetection where
  species : String
  confidence_layer1 : ℚ
  confidence_layer2 : ℚ
  bbox_layer1 : BBox
  bbox_layer2 : BBox
deriving DecidableEq

/-- The result dictionary of verify_detection_2layer. -/
structure VerificationResult where
  layer1_detections : List Detection
  layer2_detections : List Detection
  verified : Bool
  snapshot_path : Option String
  best_detection : Option BestDetection
  rejection_reason : Option String
deriving DecidableEq

/-- The opaque outcomes a single run of verify_detection_2layer
observes from its collaborators: detectL1 is the value of
detect_objects(image, LAYER1_CONFIDENCE); savePath and writeOk
instantiate save_snapshot; readOk tells whether cv2.imread on the
saved snapshot returned an image; detectL2 is the value of
detect_objects(snapshot_image, LAYER2_CONFIDENCE). -/
structure VerifyEnv where
  detectL1 : List Detection
  savePath : Option String
  writeOk : Bool
  readOk : Bool
  detectL2 : List Detection

/-- verify_detection_2layer from utils/verification.py, as a pure
function of the observed environment and the snapshot-directory state.
Branches in source order: no Layer 1 detection; snapshot save failed;
snapshot read failed (snapshot deleted); no Layer 2 detection
(snapshot deleted); species mismatch (snapshot deleted); verified. -/
def verify_detection_2layer (env : VerifyEnv) (fs : FS) : VerificationResult × FS :=
  match env.detectL1 with
  | [] => (⟨[], [], false, none, none, some "No Layer 1 detection"⟩, fs)
  | d1 :: ds1 =>
    let best_layer1 := bestOf d1 ds1
    match save_snapshot fs env.savePath env.writeOk with
    | (none, fs1) =>
      (⟨d1 :: ds1, [], false, none, none, some "Snapshot save failed"⟩, fs1)
    | (some snapshot_path, fs1) =>
      if env.readOk = false then
        (⟨d1 :: ds1, [], false, none, none, some "Snapshot read failed"⟩,
          (delete_snapshot fs1 snapshot_path).2)
      else
        match env.detectL2 with
        | [] =>
          (⟨d1 :: ds1, [], false, none, none, some "No Layer 2 detection"⟩,
            (delete_snapshot fs1 snapshot_path).2)
        | d2 :: ds2 =>
          let best_layer2 := bestOf d2 ds2
          if best_layer1.class_name ≠ best_layer2.class_name then
            (⟨d1 :: ds1, d2 :: ds2, false, none, none,
              some ("Species mismatch: L1=" ++ best_layer1.class_name ++
                    ", L2=" ++ best_layer2.class_name)⟩,
              (delete_snapshot fs1 snapshot_path).2)
          else
            (⟨d1 :: ds1, d2 :: ds2, true, some snapshot_path,
              some ⟨best_layer2.class_name, best_layer1.confidence, best_layer2.confidence,
                    best_layer1.bbox, best_layer2.bbox⟩,
              none⟩, fs1)

/-- Webcam target width from config.py. -/
def WEBCAM_WIDTH : Nat := 640

/-- Webcam target height from config.py. -/
def WEBCAM_HEIGHT : Nat := 480

/-- The camera_index constructor argument of WebcamProcessor: an
integer device index or an IP-webcam URL string. -/
inductive CameraId where
  | device : Int → CameraId
  | url : String → CameraId
deriving DecidableEq

/-- A raster frame, modelled by its pixel dimensions (the only frame
data the embedded claims inspect). frame.shape[:2] is (height, width). -/
structure Frame where
  height : Nat
  width : Nat
deriving DecidableEq

/-- Mutable state of a WebcamProcessor from utils/video_processor.py.
cap is none when no capture handle is held, some b when a handle whose
isOpened() returns b is held. -/
structure WebcamProcessor where
  camera_index : CameraId
  cap : Option Bool
  running : Bool
  fps : ℚ
  last_time : ℚ
  frame_count : Nat

/-- The constructor of WebcamProcessor: cap None, running False, fps 0,
frame_count 0, last_time set to the current time. -/
def WebcamProcessor.init (camera_index : CameraId) (now : ℚ) : WebcamProcessor :=
  ⟨camera_index, none, false, 0, now, 0⟩

/-- WebcamProcessor.start: openResult abstracts cv2.VideoCapture
(none when the constructor raises, some b when it yields a handle with
isOpened() = b). On an unopened handle the method returns False; on
success it stores the handle, sets running and last_time, and returns
True. The resolution requests sent to an opened local device do not
change the processor state. -/
def WebcamProcessor.start (s : WebcamProcessor) (openResult : Option Bool) (now : ℚ) :
    Bool × WebcamProcessor :=
  match openResult with
  | none => (false, s)
  | some opened =>
    if opened = false then (false, { s with cap := some false })
    else (true, { s with cap := some true, running := true, last_time := now })

/-- WebcamProcessor.is_running: running flag set, a handle held, and the
handle reports itself open. -/
def WebcamProcessor.is_running (s : WebcamProcessor) : Bool :=
  s.running && (match s.cap with | some opened => opened | none => false)

/-- The outcomes one call to WebcamProcessor.read_frame observes:
readResult abstracts cap.read() (none on failure, some frame on
success) and now abstracts time.time() at the FPS sample point. -/
structure ReadEnv where
  readResult : Option Frame
  now : ℚ

/-- WebcamProcessor.read_frame: returns (False, None) when not running
or when cap.read fails, leaving the state unchanged. Otherwise, for a
URL source only, a frame wider or taller than the configured target is
resized to exactly the target dimensions; then the frame counter is
advanced and every 10th frame the FPS estimate is resampled. -/
def WebcamProcessor.read_frame (s : WebcamProcessor) (env : ReadEnv) :
    (Bool × Option Frame) × WebcamProcessor :=
  if s.is_running then
    match env.readResult with
    | none => ((false, none), s)
    | some frame0 =>
      let frame :=
        match s.camera_index with
        | CameraId.url _ =>
          if frame0.width > WEBCAM_WIDTH ∨ frame0.height > WEBCAM_HEIGHT then
            (⟨WEBCAM_HEIGHT, WEBCAM_WIDTH⟩ : Frame)
          else frame0
        | CameraId.device _ => frame0
      let fc := s.frame_count + 1
      let s1 :=
        if fc % 10 = 0 then
          { s with frame_count := fc, fps := 10 / (env.now - s.last_time), last_time := env.now }
        else
          { s with frame_count := fc }
      ((true, some frame), s1)
  else ((false, none), s)

/-- The frame the amended remote-stream claim predicts read_frame
returns: resized to exactly the target when either dimension exceeds
it, otherwise unchanged (a spec-side definition, compared against
read_frame). -/
def specRemoteFrame (f : Frame) : Frame :=
  if f.width > WEBCAM_WIDTH ∨ f.height > WEBCAM_HEIGHT then
    (⟨WEBCAM_HEIGHT, WEBCAM_WIDTH⟩ : Frame)
  else f

/-- Concrete detection: a Tiger at confidence 0.5. -/
def tigerHalf : Detection := ⟨3, "Tiger", 1/2, ⟨0, 0, 1, 1⟩⟩

/-- Concrete detection: a Bear at confidence 0.5. -/
def bearHalf : Detection := ⟨0, "Bear", 1/2, ⟨0, 0, 1, 1⟩⟩

/-- Concrete detection: a Tiger at confidence 0.6. -/
def tiger60 : Detection := ⟨3, "Tiger", 3/5, ⟨0, 0, 1, 1⟩⟩

/-- Concrete detection: a Bear at confidence 0.5. -/
def bear50 : Detection := ⟨0, "Bear", 1/2, ⟨2, 2, 4, 4⟩⟩

/-- Concrete detection: an Elephant at confidence 0.55. -/
def elephant55 : Detection := ⟨1, "Elephant", 11/20, ⟨0, 0, 2, 2⟩⟩

/-- Concrete detection: an Elephant at confidence 0.42. -/
def elephant42 : Detection := ⟨1, "Elephant", 21/50, ⟨0, 0, 3, 3⟩⟩

/-- Environment of a run whose Layer 1 pass sees nothing. -/
def envNoL1 : VerifyEnv := ⟨[], none, false, false, []⟩

/-- Environment of a run where the two layers disagree on species. -/
def envMismatch : VerifyEnv := ⟨[tiger60], some "snap.jpg", true, true, [bear50]⟩

/-- Environment of a run where the two layers agree on species. -/
def envMatch : VerifyEnv := ⟨[elephant55], some "snap2.jpg", true, true, [elephant42]⟩

/-- A processor on a remote-stream URL, after a successful start. -/
def urlProc : WebcamProcessor :=
  ((WebcamProcessor.init (CameraId.url "http://192.168.1.7:8080/video") 0).start (some true) 0).2

/-- A processor on local device 0, after a successful start. -/
def devProc : WebcamProcessor :=
  ((WebcamProcessor.init (CameraId.device 0) 0).start (some true) 0).2

theorem bestOf_cons (d x : Detection) (xs : List Detection) :
    bestOf d (x :: xs) = bestOf (maxStep d x) xs := rfl

theorem le_maxStep_left (d x : Detection) : d.confidence ≤ (maxStep d x).confidence := by
  unfold maxStep
  split
  · exact le_of_lt (by assumption)
  · exact le_refl _

theorem le_maxStep_right (d x : Detection) : x.confidence ≤ (maxStep d x).confidence := by
  unfold maxStep
  split
  · exact le_refl _
  · exact le_of_not_lt (by assumption)

theorem le_bestOf (ds : List Detection) :
    ∀ d : Detection, d.confidence ≤ (bestOf d ds).confidence := by
  induction ds with
  | nil => intro d; exact le_refl _
  | cons x xs ih =>
    intro d
    rw [bestOf_cons]
    exact le_trans (le_maxStep_left d x) (ih (maxStep d x))

theorem bestOf_decomp (ds : List Detection) : ∀ d : Detection,
    ∃ l₁ l₂, d :: ds = l₁ ++ (bestOf d ds) :: l₂ ∧
      (∀ e ∈ l₁, e.confidence < (bestOf d ds).confidence) ∧
      (∀ e ∈ l₂, e.confidence ≤ (bestOf d ds).confidence) := by
  induction ds with
  | nil =>
    intro d
    refine ⟨[], [], rfl, ?_, ?_⟩
    · intro e he; exact absurd he (List.not_mem_nil e)
    · intro e he; exact absurd he (List.not_mem_nil e)
  | cons x xs ih =>
    intro d
    rw [bestOf_cons]
    by_cases hc : d.confidence < x.confidence
    · have hm : maxStep d x = x := if_pos hc
      rw [hm]
      obtain ⟨l₁, l₂, hdec, hlt, hle⟩ := ih x
      refine ⟨d :: l₁, l₂, ?_, ?_, hle⟩
      · rw [List.cons_append, ← hdec]
      · intro e he
        rcases List.mem_cons.mp he with h | h
        · subst h
          exact lt_of_lt_of_le hc (le_bestOf xs x)
        · exact hlt e h
    · have hm : maxStep d x = d := if_neg hc
      rw [hm]
      have hxd : x.confidence ≤ d.confidence := le_of_not_lt hc
      obtain ⟨l₁, l₂, hdec, hlt, hle⟩ := ih d
      cases l₁ with
      | nil =>
        simp only [List.nil_append] at hdec
        injection hdec with hd hxs
        refine ⟨[], x :: xs, ?_, ?_, ?_⟩
        · rw [List.nil_append, ← hd]
        · intro e he; exact absurd he (List.not_mem_nil e)
        · intro e he
          rcases List.mem_cons.mp he with h | h
          · subst h
            rw [← hd]
            exact hxd
          · rw [hxs] at h
            exact hle e h
      | cons a l₁t =>
        rw [List.cons_append] at hdec
        injection hdec with hd hxs
        refine ⟨d :: x :: l₁t, l₂, ?_, ?_, hle⟩
        · rw [List.cons_append, List.cons_append]
          conv_lhs => rw [hxs]
        · intro e he
          have hdlt : d.confidence < (bestOf d xs).confidence := by
            have ha := hlt a (List.mem_cons_self a l₁t)
            rw [← hd] at ha
            exact ha
          rcases List.mem_cons.mp he with h | h
          · subst h; exact hdlt
          · rcases List.mem_cons.mp h with h2 | h2
            · subst h2; exact lt_of_le_of_lt hxd hdlt
            · exact hlt e (List.mem_cons_of_mem a h2)

/-- Claim C1: get_highest_confidence_detection returns none on the
empty list; on any other list it returns an element of the list whose
confidence is maximal, and among elements sharing the maximal
confidence the first in input order wins: the list splits as
l₁ ++ r :: l₂ with every element of l₁ strictly below r and every
element of l₂ at most r. -/
theorem highest_confidence_first_argmax (D : List Detection) :
    (D = [] → get_highest_confidence_detection D = none) ∧
    (∀ r : Detection, get_highest_confidence_detection D = some r →
      ∃ l₁ l₂, D = l₁ ++ r :: l₂ ∧
        (∀ e ∈ l₁, e.confidence < r.confidence) ∧
        (∀ e ∈ l₂, e.confidence ≤ r.confidence)) := by
  constructor
  · intro h; subst h; rfl
  · intro r hr
    cases D with
    | nil => exact absurd hr (by simp [get_highest_confidence_detection])
    | cons d ds =>
      have hbest : bestOf d ds = r := by
        simpa [get_highest_confidence_detection] using hr
      subst hbest
      exact bestOf_decomp ds d

/-- Witness for C1 on a concrete two-element list with tied
confidences: the first element wins. -/
theorem highest_confidence_first_argmax_witness :
    ∃ l₁ l₂, [tigerHalf, bearHalf] = l₁ ++ tigerHalf :: l₂ ∧
      (∀ e ∈ l₁, e.confidence < tigerHalf.confidence) ∧
      (∀ e ∈ l₂, e.confidence ≤ tigerHalf.confidence) :=
  (highest_confidence_first_argmax [tigerHalf, bearHalf]).2 tigerHalf
    (by norm_num [get_highest_confidence_detection, bestOf, maxStep, tigerHalf, bearHalf])

theorem not_mem_delete_snapshot (fs : FS) (p : String) : p ∉ (delete_snapshot fs p).2 := by
  by_cases hmem : p ∈ fs
  · simp [delete_snapshot, hmem, List.mem_filter]
  · simp [delete_snapshot, hmem]

theorem delete_snapshot_of_not_mem (fs : FS) (p : String) (h : p ∉ fs) :
    delete_snapshot fs p = (false, fs) := by
  simp [delete_snapshot, h]

theorem filter_ne_of_not_mem (fs : FS) (p : String) (h : p ∉ fs) :
    fs.filter (fun q => !(q == p)) = fs := by
  induction fs with
  | nil => rfl
  | cons a l ih =>
    have ha : a ≠ p := fun e => h (by simp [e])
    have hl : p ∉ l := fun e => h (List.mem_cons_of_mem _ e)
    simp [List.filter_cons, ha, ih hl]

theorem delete_snapshot_fresh_cons (fs : FS) (p : String) (h : p ∉ fs) :
    delete_snapshot (p :: fs) p = (true, fs) := by
  have hmem : p ∈ p :: fs := List.mem_cons_self p fs
  simp [delete_snapshot, hmem, List.filter_cons, filter_ne_of_not_mem fs p h]

/-- Claim C6: deleting an existing path returns true and leaves the
path absent, after which a second delete of the same path returns
false; deleting a path that does not exist returns false and changes
nothing. -/
theorem delete_snapshot_idempotent (fs : FS) (p : String) :
    (p ∈ fs →
      (delete_snapshot fs p).1 = true ∧
      p ∉ (delete_snapshot fs p).2 ∧
      delete_snapshot (delete_snapshot fs p).2 p = (false, (delete_snapshot fs p).2)) ∧
    (p ∉ fs → delete_snapshot fs p = (false, fs)) := by
  constructor
  · intro h
    refine ⟨by simp [delete_snapshot, h], not_mem_delete_snapshot fs p, ?_⟩
    exact delete_snapshot_of_not_mem _ p (not_mem_delete_snapshot fs p)
  · intro h
    exact delete_snapshot_of_not_mem fs p h

/-- Witness for C6 on the one-file directory: the first delete
succeeds and empties the directory, the second returns false. -/
theorem delete_snapshot_idempotent_witness :
    (delete_snapshot ["a.jpg"] "a.jpg").1 = true ∧
    "a.jpg" ∉ (delete_snapshot ["a.jpg"] "a.jpg").2 ∧
    delete_snapshot (delete_snapshot ["a.jpg"] "a.jpg").2 "a.jpg" =
      (false, (delete_snapshot ["a.jpg"] "a.jpg").2) :=
  (delete_snapshot_idempotent ["a.jpg"] "a.jpg").1 (by simp)

/-- Claim C2: when the Layer 1 pass sees no detections,
verify_detection_2layer rejects with the no-Layer-1-detection reason
and the snapshot directory is left untouched. -/
theorem verify_no_layer1 (env : VerifyEnv) (fs : FS) (h : env.detectL1 = []) :
    (verify_detection_2layer env fs).1.verified = false ∧
    (verify_detection_2layer env fs).1.rejection_reason = some "No Layer 1 detection" ∧
    (verify_detection_2layer env fs).2 = fs := by
  obtain ⟨l1, sp, w, r, l2⟩ := env
  simp only at h
  subst h
  simp [verify_detection_2layer]

/-- Witness for C2 on a concrete empty-Layer-1 run over an empty
snapshot directory. -/
theorem verify_no_layer1_witness :
    (verify_detection_2layer envNoL1 []).1.verified = false ∧
    (verify_detection_2layer envNoL1 []).1.rejection_reason = some "No Layer 1 detection" ∧
    (verify_detection_2layer envNoL1 []).2 = [] :=
  verify_no_layer1 envNoL1 [] rfl

/-- Claim C3: when both layers detect but their best detections name
different species, verify_detection_2layer rejects with a reason built
from both species names, and the snapshot saved during the run is no
longer present afterwards. -/
theorem verify_species_mismatch (env : VerifyEnv) (fs : FS)
    (d1 d2 : Detection) (ds1 ds2 : List Detection) (p : String)
    (h1 : env.detectL1 = d1 :: ds1) (hs : env.savePath = some p)
    (hr : env.readOk = true) (h2 : env.detectL2 = d2 :: ds2)
    (hm : (bestOf d1 ds1).class_name ≠ (bestOf d2 ds2).class_name) :
    (verify_detection_2layer env fs).1.verified = false ∧
    (verify_detection_2layer env fs).1.rejection_reason =
      some ("Species mismatch: L1=" ++ (bestOf d1 ds1).class_name ++
            ", L2=" ++ (bestOf d2 ds2).class_name) ∧
    p ∉ (verify_detection_2layer env fs).2 := by
  obtain ⟨l1, sp, w, r, l2⟩ := env
  simp only at h1 hs hr h2
  subst h1
  subst hs
  subst hr
  subst h2
  refine ⟨?_, ?_, ?_⟩
  · simp [verify_detection_2layer, save_snapshot, hm]
  · simp [verify_detection_2layer, save_snapshot, hm]
  · simp only [verify_detection_2layer, save_snapshot, hm]
    simp only [ne_eq, hm, not_false_eq_true, if_true]
    exact not_mem_delete_snapshot _ p

/-- Witness for C3: Layer 1 sees a Tiger, Layer 2 a Bear; the run
rejects naming both and removes the snapshot. -/
theorem verify_species_mismatch_witness :
    (verify_detection_2layer envMismatch []).1.verified = false ∧
    (verify_detection_2layer envMismatch []).1.rejection_reason =
      some ("Species mismatch: L1=" ++ (bestOf tiger60 []).class_name ++
            ", L2=" ++ (bestOf bear50 []).class_name) ∧
    "snap.jpg" ∉ (verify_detection_2layer envMismatch []).2 :=
  verify_species_mismatch envMismatch [] tiger60 bear50 [] [] "snap.jpg"
    rfl rfl rfl rfl (by decide)

/-- Claim C4: when both layers detect and their best detections agree
on species, verify_detection_2layer returns verified=true carrying
both detection lists, the snapshot path (whose file is still present
in the directory afterwards), and a best_detection record combining
the shared species with the confidences and bounding boxes of both
layers. -/
theorem verify_species_match (env : VerifyEnv) (fs : FS)
    (d1 d2 : Detection) (ds1 ds2 : List Detection) (p : String)
    (h1 : env.detectL1 = d1 :: ds1) (hs : env.savePath = some p)
    (hw : env.writeOk = true) (hr : env.readOk = true) (h2 : env.detectL2 = d2 :: ds2)
    (hm : (bestOf d1 ds1).class_name = (bestOf d2 ds2).class_name) :
    (verify_detection_2layer env fs).1 =
      ⟨d1 :: ds1, d2 :: ds2, true, some p,
        some ⟨(bestOf d2 ds2).class_name, (bestOf d1 ds1).confidence,
              (bestOf d2 ds2).confidence, (bestOf d1 ds1).bbox, (bestOf d2 ds2).bbox⟩,
        none⟩ ∧
    (verify_detection_2layer env fs).2 = p :: fs ∧
    p ∈ (verify_detection_2layer env fs).2 := by
  obtain ⟨l1, sp, w, r, l2⟩ := env
  simp only at h1 hs hw hr h2
  subst h1
  subst hs
  subst hw
  subst hr
  subst h2
  refine ⟨?_, ?_, ?_⟩
  · simp [verify_detection_2layer, save_snapshot, hm]
  · simp [verify_detection_2layer, save_snapshot, hm]
  · simp [verify_detection_2layer, save_snapshot, hm]

/-- Witness for C4: both layers see an Elephant; the run verifies and
the snapshot stays in the directory. -/
theorem verify_species_match_witness :
    (verify_detection_2layer envMatch []).1 =
      ⟨[elephant55], [elephant42], true, some "snap2.jpg",
        some ⟨(bestOf elephant42 []).class_name, (bestOf elephant55 []).confidence,
              (bestOf elephant42 []).confidence, (bestOf elephant55 []).bbox,
              (bestOf elephant42 []).bbox⟩,
        none⟩ ∧
    (verify_detection_2layer envMatch []).2 = ["snap2.jpg"] ∧
    "snap2.jpg" ∈ (verify_detection_2layer envMatch []).2 :=
  verify_species_match envMatch [] elephant55 elephant42 [] [] "snap2.jpg"
    rfl rfl rfl rfl rfl rfl

/-- Claim C5: over one verification run whose snapshot filename is
fresh (timestamped, so not already present) and whose snapshot can
only be re-read if it was actually written, a rejected run returns the
snapshot directory exactly as it found it (every snapshot it saved has
been deleted), and a verified run returns a directory holding exactly
the one new file referenced by the snapshot_path of the result; so
outside a call, a verifier-created snapshot exists precisely when a
verified=true result references it. -/
theorem verify_snapshot_invariant (env : VerifyEnv) (fs : FS)
    (hfresh : ∀ p, env.savePath = some p → p ∉ fs)
    (hwf : env.readOk = true → env.writeOk = true) :
    ((verify_detection_2layer env fs).1.verified = false →
      (verify_detection_2layer env fs).2 = fs) ∧
    ((verify_detection_2layer env fs).1.verified = true →
      ∃ q, (verify_detection_2layer env fs).1.snapshot_path = some q ∧
        (verify_detection_2layer env fs).2 = q :: fs ∧
        q ∈ (verify_detection_2layer env fs).2) := by
  obtain ⟨l1, sp, w, r, l2⟩ := env
  simp only at hfresh hwf
  cases l1 with
  | nil => simp [verify_detection_2layer]
  | cons d1 ds1 =>
    cases sp with
    | none => simp [verify_detection_2layer, save_snapshot]
    | some p =>
      have hp : p ∉ fs := hfresh p rfl
      cases r with
      | false =>
        cases w with
        | false =>
          simp [verify_detection_2layer, save_snapshot,
            delete_snapshot_of_not_mem fs p hp]
        | true =>
          simp [verify_detection_2layer, save_snapshot,
            delete_snapshot_fresh_cons fs p hp]
      | true =>
        have hw : w = true := hwf rfl
        subst hw
        cases l2 with
        | nil =>
          simp [verify_detection_2layer, save_snapshot,
            delete_snapshot_fresh_cons fs p hp]
        | cons d2 ds2 =>
          by_cases hm : (bestOf d1 ds1).class_name = (bestOf d2 ds2).class_name
          · simp [verify_detection_2layer, save_snapshot, hm]
          · simp [verify_detection_2layer, save_snapshot, hm,
              delete_snapshot_fresh_cons fs p hp]

/-- Witness for C5 on the concrete agreeing run over an empty
directory: the verified result references the one snapshot file
present afterwards. -/
theorem verify_snapshot_invariant_witness :
    ∃ q, (verify_detection_2layer envMatch []).1.snapshot_path = some q ∧
      (verify_detection_2layer envMatch []).2 = q :: [] ∧
      q ∈ (verify_detection_2layer envMatch []).2 :=
  (verify_snapshot_invariant envMatch []
    (fun p _ => List.not_mem_nil p) (fun _ => rfl)).2 rfl

/-- Claim C10: every result of verify_detection_2layer is verified
exactly when its rejection_reason is absent; a rejected result carries
no snapshot_path and no best_detection, and a verified result carries
both. -/
theorem verification_result_shape (env : VerifyEnv) (fs : FS) :
    ((verify_detection_2layer env fs).1.verified = true ↔
      (verify_detection_2layer env fs).1.rejection_reason = none) ∧
    ((verify_detection_2layer env fs).1.verified = false →
      (verify_detection_2layer env fs).1.snapshot_path = none ∧
      (verify_detection_2layer env fs).1.best_detection = none) ∧
    ((verify_detection_2layer env fs).1.verified = true →
      (verify_detection_2layer env fs).1.snapshot_path ≠ none ∧
      (verify_detection_2layer env fs).1.best_detection ≠ none) := by
  obtain ⟨l1, sp, w, r, l2⟩ := env
  cases l1 with
  | nil => simp [verify_detection_2layer]
  | cons d1 ds1 =>
    cases sp with
    | none => simp [verify_detection_2layer, save_snapshot]
    | some p =>
      cases r with
      | false => simp [verify_detection_2layer, save_snapshot]
      | true =>
        cases l2 with
        | nil => simp [verify_detection_2layer, save_snapshot]
        | cons d2 ds2 =>
          by_cases hm : (bestOf d1 ds1).class_name = (bestOf d2 ds2).class_name
          · simp [verify_detection_2layer, save_snapshot, hm]
          · simp [verify_detection_2layer, save_snapshot, hm]

/-- Witness for C10 on the concrete empty-Layer-1 run: the rejected
result carries neither snapshot_path nor best_detection. -/
theorem verification_result_shape_witness :
    (verify_detection_2layer envNoL1 []).1.snapshot_path = none ∧
    (verify_detection_2layer envNoL1 []).1.best_detection = none :=
  (verification_result_shape envNoL1 []).2.1 rfl

/-- Claim C7: when start on a fresh processor reports failure (the
capture handle raised or did not open), the processor is not running
and any subsequent read_frame yields (false, none) without changing
the state. -/
theorem start_failure_behavior (c : CameraId) (t now : ℚ) (openResult : Option Bool)
    (env : ReadEnv)
    (h : ((WebcamProcessor.init c t).start openResult now).1 = false) :
    (((WebcamProcessor.init c t).start openResult now).2).is_running = false ∧
    (((WebcamProcessor.init c t).start openResult now).2).read_frame env =
      ((false, none), ((WebcamProcessor.init c t).start openResult now).2) := by
  cases openResult with
  | none => exact ⟨rfl, rfl⟩
  | some opened =>
    cases opened with
    | false => exact ⟨rfl, rfl⟩
    | true =>
      exact absurd h (by simp [WebcamProcessor.start, WebcamProcessor.init])

/-- Witness for C7: a device whose capture constructor fails leaves a
non-running processor whose reads return (false, none). -/
theorem start_failure_behavior_witness :
    (((WebcamProcessor.init (CameraId.device 0) 0).start none 0).2).is_running = false ∧
    (((WebcamProcessor.init (CameraId.device 0) 0).start none 0).2).read_frame ⟨none, 1⟩ =
      ((false, none), ((WebcamProcessor.init (CameraId.device 0) 0).start none 0).2) :=
  start_failure_behavior (CameraId.device 0) 0 0 none ⟨none, 1⟩ rfl

/-- Counterexample to C8 as stated: a running URL source handed a
100 by 100 frame returns it unresized, while a running local device
handed a 640 by 480 frame returns that, so frames returned by
read_frame do not all share the same dimensions across source types. -/
theorem read_frame_dimension_counterexample :
    (urlProc.read_frame ⟨some ⟨100, 100⟩, 1⟩).1 = (true, some ⟨100, 100⟩) ∧
    (devProc.read_frame ⟨some ⟨480, 640⟩, 1⟩).1 = (true, some ⟨480, 640⟩) ∧
    (⟨100, 100⟩ : Frame) ≠ (⟨480, 640⟩ : Frame) := by
  refine ⟨?_, rfl, by decide⟩
  show (urlProc.read_frame ⟨some ⟨100, 100⟩, 1⟩).1 = (true, some ⟨100, 100⟩)
  simp [urlProc, WebcamProcessor.read_frame, WebcamProcessor.is_running,
    WebcamProcessor.start, WebcamProcessor.init, WEBCAM_WIDTH, WEBCAM_HEIGHT]

/-- Claim C8 as amended: for a running remote-stream source, a frame
either of whose dimensions exceeds the configured target is downscaled
to exactly the local-camera target dimensions and is otherwise
returned unchanged, so a returned remote frame never exceeds the
target dimensions (but a frame smaller than the target keeps its own
dimensions). -/
theorem read_frame_url_downscale (s : WebcamProcessor) (u : String) (env : ReadEnv)
    (f : Frame) (hc : s.camera_index = CameraId.url u)
    (hrun : s.is_running = true) (hf : env.readResult = some f) :
    (s.read_frame env).1 = (true, some (specRemoteFrame f)) ∧
    (specRemoteFrame f).width ≤ WEBCAM_WIDTH ∧
    (specRemoteFrame f).height ≤ WEBCAM_HEIGHT := by
  refine ⟨?_, ?_, ?_⟩
  · simp only [WebcamProcessor.read_frame, hrun, hf, hc, if_true, specRemoteFrame]
  · unfold specRemoteFrame
    split
    · exact le_refl _
    · next hb =>
      rw [not_or] at hb
      exact le_of_not_lt hb.1
  · unfold specRemoteFrame
    split
    · exact le_refl _
    · next hb =>
      rw [not_or] at hb
      exact le_of_not_lt hb.2

/-- Witness for the amended C8: a running URL source handed an
800 by 600 frame returns the 640 by 480 target frame, within the
target bounds. -/
theorem read_frame_url_downscale_witness :
    (urlProc.read_frame ⟨some ⟨600, 800⟩, 1⟩).1 = (true, some (specRemoteFrame ⟨600, 800⟩)) ∧
    (specRemoteFrame ⟨600, 800⟩).width ≤ WEBCAM_WIDTH ∧
    (specRemoteFrame ⟨600, 800⟩).height ≤ WEBCAM_HEIGHT :=
  read_frame_url_downscale urlProc "http://192.168.1.7:8080/video" ⟨some ⟨600, 800⟩, 1⟩
    ⟨600, 800⟩ rfl rfl rfl

/-- Claim C9 (code bug in the source): detect_objects catches every
exception the underlying inference raises and returns the empty list,
so a truly unexpected inference error is indistinguishable from a
genuine run that found no detections, instead of propagating as a
distinguishable error kind. -/
theorem detect_objects_swallows_inference_error :
    detect_objects true (Except.error "corrupt image buffer") = [] ∧
    detect_objects true (Except.ok []) = [] :=
  ⟨rfl, rfl⟩

end WildVision
